import Mathlib

/-!
Verification development for the e-commerce shopping-assistant API
(`main.py` / `src/fastapi.py`): the per-session chat orchestration
pipeline, session registry operations, and their HTTP error behavior.

The three collaborator classes (`ConversationAgent`, `ShoppingTeam`,
`ProductImageProcessingAgent`) are configured objects whose network/LLM
behavior lives outside this file's source; their per-call behavior is
modelled as an `Oracle` of pure fallible functions matching the adapter
contracts (`process_image`, `process_query`, `run`), while the configured
instances themselves are modelled as records so that identity-preservation
properties can be stated.  Exceptions raised by a collaborator call are
modelled as `Except.error` values.  The global `agents_store` dict is
modelled as a function `String → Option Session`; `datetime.now()` is
modelled by a clock parameter `Nat → String` indexed by call order
within a turn.
-/

namespace Ecom

/-- A raised `HTTPException(status_code, detail)`. -/
structure HTTPException where
  status_code : Nat
  detail : String
deriving DecidableEq, Repr

/-- The `ConversationAgent` instance: configuration plus internal dialogue
state.  The dialogue-state field and `reset` are modelled from the spec
(the class body is in `conversation.py`, outside the visible source). -/
structure ConversationAgent where
  api_key : String
  llm_mode : String
  dialogueState : Nat
deriving DecidableEq, Repr

/-- The initial dialogue state a freshly constructed `ConversationAgent`
starts in. -/
def initDialogueState : Nat := 0

/-- Modelled from the spec: `ConversationAgent.reset()` (implemented in the
missing `conversation.py`) returns the engine's internal dialogue state to
its initial state; credentials/configuration are untouched. -/
def ConversationAgent.reset (a : ConversationAgent) : ConversationAgent :=
  { a with dialogueState := initDialogueState }

/-- The `ShoppingTeam` instance: its configuration as passed in `setup_agents`. -/
structure ShoppingTeam where
  api_key_llm : String
  api_key_search_tool : String
  search_tool : String
  llm_mode : String
  firecrawl_api_key : String
deriving DecidableEq, Repr

/-- The `ProductImageProcessingAgent` instance: its configuration. -/
structure ProductImageProcessingAgent where
  api_key : String
  llm_mode : String
deriving DecidableEq, Repr

/-- Pydantic `MessageModel`: role, content, timestamp, optional type tag. -/
structure MessageModel where
  role : String
  content : String
  timestamp : String
  type : Option String
deriving DecidableEq, Repr

/-- Pydantic `ChatResponse`. -/
structure ChatResponse where
  type : String
  message : String
  products_html : Option String
  continue_conversation : Bool
  timestamp : String
deriving DecidableEq, Repr

/-- Pydantic `SessionResponse`. -/
structure SessionResponse where
  session_id : String
  success : Bool
  message : String
deriving DecidableEq, Repr

/-- The `{"success": ..., "message": ...}` JSON bodies returned by
`clear_conversation` and `delete_session`. -/
structure OkResponse where
  success : Bool
  message : String
deriving DecidableEq, Repr

/-- The JSON body returned by `upload_image` on success. -/
structure UploadResponse where
  success : Bool
  extracted_text : String
  filename : String
deriving DecidableEq, Repr

/-- Pydantic `ChatRequest`. -/
structure ChatRequest where
  session_id : String
  message : String
  image_data : Option String
deriving DecidableEq, Repr

/-- Pydantic `ConfigRequest`. -/
structure ConfigRequest where
  api_key_llm : String
  api_key_search_tool : String
  api_key_firecrawl : String
  web_search_mode : String
  llm_mode : String
deriving DecidableEq, Repr

/-- The dict `conversation_agent.process_query` returns:
`have_further_conversation`, `message`, and the extracted `data` payload
(opaque here). -/
structure ConvResponse where
  have_further_conversation : Bool
  message : String
  data : String
deriving DecidableEq, Repr

/-- The per-call behavior of the three external collaborator engines
(adapter contracts of the spec, implemented outside the visible source):
`process_image image_bytes user_input` returns the interpreter's `.content`,
`process_query text` returns the conversation dict, `run payload` returns the
shopping team result's `.content`.  An `Except.error` models a raised
exception. -/
structure Oracle where
  process_image : List Nat → String → Except String String
  process_query : String → Except String ConvResponse
  run : String → Except String String

/-- One session bundle stored in `agents_store`. -/
structure Session where
  conversation_agent : ConversationAgent
  shopping_team : ShoppingTeam
  image_processor : ProductImageProcessingAgent
  messages : List MessageModel
  created_at : Nat
deriving DecidableEq, Repr

/-- The global `agents_store` dict. -/
abbrev Store := String → Option Session

/-- Python `agents_store[id]['messages'].append(m)`: append a message to the
session's log in place. -/
def storeAppend (store : Store) (id : String) (m : MessageModel) : Store :=
  fun k =>
    if k = id then (store k).map (fun s => { s with messages := s.messages ++ [m] })
    else store k

/-- Python `s.split(',')` on the character list of `s`. -/
def splitOnComma : List Char → List (List Char)
  | [] => [[]]
  | ch :: rest =>
    if ch = ',' then [] :: splitOnComma rest
    else
      match splitOnComma rest with
      | [] => [[ch]]
      | g :: gs => (ch :: g) :: gs

/-- The string the code passes to `base64.b64decode`:
`chat_request.image_data.split(',')[1]`, `none` modelling the `IndexError`
when the split has no second element. -/
def b64Input (s : List Char) : Option (List Char) :=
  (splitOnComma s).get? 1

/-- Modelled from the spec: the image-payload convention, in the spec's own
words — the prefix before the FIRST comma is discarded and the remainder is
the base64 body.  Used only to compare against `b64Input`. -/
def remainderAfterFirstComma (s : List Char) : Option (List Char) :=
  if ',' ∈ s then some ((s.dropWhile (fun ch => ch != ',')).drop 1) else none

/-- Value of a standard base64 alphabet character. -/
def b64val (c : Char) : Option Nat :=
  if 'A' ≤ c ∧ c ≤ 'Z' then some (c.toNat - 65)
  else if 'a' ≤ c ∧ c ≤ 'z' then some (c.toNat - 97 + 26)
  else if '0' ≤ c ∧ c ≤ '9' then some (c.toNat - 48 + 52)
  else if c = '+' then some 62
  else if c = '/' then some 63
  else none

/-- Turn a list of 6-bit values into bytes, three per quad, handling a
final partial group of two or three values. -/
def b64groups : List Nat → List Nat
  | a :: b :: c :: d :: rest =>
      (a * 4 + b / 16) :: ((b % 16) * 16 + c / 4) :: ((c % 4) * 64 + d) :: b64groups rest
  | [a, b] => [a * 4 + b / 16]
  | [a, b, c] => [a * 4 + b / 16, (b % 16) * 16 + c / 4]
  | _ => []

/-- Python `base64.b64decode` with its default lenient validation:
characters outside the alphabet (other than padding) are discarded, then
the length/padding is checked; `none` models the raised `binascii.Error`. -/
def b64decode (s : List Char) : Option (List Nat) :=
  let kept := s.filter (fun ch => (b64val ch).isSome || ch == '=')
  let body := kept.takeWhile (fun ch => ch != '=')
  let pad := (kept.drop body.length).countP (fun ch => ch == '=')
  if (body.length + pad) % 4 = 0 ∧ body.length % 4 ≠ 1 then
    some (b64groups (body.filterMap b64val))
  else none

/-- Lines 120–122 of `process_chat` as one step: split the data-URI string
on commas, take element 1, base64-decode it; `none` models either raised
exception. -/
def decodeImagePayload (s : String) : Option (List Nat) :=
  match b64Input s.data with
  | none => none
  | some seg => b64decode seg

/-- Step 1 of `process_chat`: the effective user input after the optional
image stage.  `if chat_request.image_data:` is Python truthiness, so a
missing or empty string skips the stage.  Errors carry the exception text
later wrapped into the 500 detail. -/
def effInput (o : Oracle) (req : ChatRequest) : Except String String :=
  match req.image_data with
  | none => Except.ok req.message
  | some s =>
    if s.isEmpty then Except.ok req.message
    else
      match b64Input s.data with
      | none => Except.error "list index out of range"
      | some seg =>
        match b64decode seg with
        | none => Except.error "Invalid base64-encoded string"
        | some image_bytes => o.process_image image_bytes req.message

/-- The `POST /api/chat` handler `process_chat`.  Returns the store as left by
the turn (appends survive a failing later stage, as in the Python code,
which mutates the session's list in place) together with either the
`ChatResponse` or the raised `HTTPException`.  `c` is the `datetime.now()`
clock indexed by call order. -/
def process_chat (o : Oracle) (c : Nat → String) (req : ChatRequest) (store : Store) :
    Store × Except HTTPException ChatResponse :=
  match store req.session_id with
  | none => (store, Except.error ⟨404, "Session not found. Please configure agents first."⟩)
  | some _ =>
    match effInput o req with
    | Except.error e => (store, Except.error ⟨500, "Processing error: " ++ e⟩)
    | Except.ok user_input =>
      let store1 := storeAppend store req.session_id ⟨"user", user_input, c 0, none⟩
      match o.process_query user_input with
      | Except.error e => (store1, Except.error ⟨500, "Processing error: " ++ e⟩)
      | Except.ok conv =>
        if conv.have_further_conversation then
          let store2 := storeAppend store1 req.session_id ⟨"assistant", conv.message, c 1, none⟩
          (store2, Except.ok ⟨"conversation", conv.message, none, true, c 2⟩)
        else
          let store2 := storeAppend store1 req.session_id ⟨"assistant", conv.message, c 1, none⟩
          match o.run conv.data with
          | Except.error e => (store2, Except.error ⟨500, "Processing error: " ++ e⟩)
          | Except.ok shopping_content =>
            let store3 := storeAppend store2 req.session_id
              ⟨"assistant", shopping_content, c 2, some "product_results"⟩
            (store3, Except.ok ⟨"product_search", conv.message, some shopping_content, false, c 3⟩)

/-- The `GET /api/messages/{session_id}` handler: the session's message list,
or an empty list for an unknown id; never an error. -/
def get_messages (store : Store) (id : String) : List MessageModel :=
  match store id with
  | some s => s.messages
  | none => []

/-- The `POST /api/clear/{session_id}` handler: empty the message list and
reset the conversation agent; 404 if the session is unknown. -/
def clear_conversation (store : Store) (id : String) :
    Store × Except HTTPException OkResponse :=
  match store id with
  | none => (store, Except.error ⟨404, "Session not found"⟩)
  | some s =>
    (fun k =>
        if k = id then
          some { s with messages := [], conversation_agent := s.conversation_agent.reset }
        else store k,
     Except.ok ⟨true, "Conversation cleared"⟩)

/-- The `DELETE /api/session/{session_id}` handler: remove the bundle, 404 if
already absent. -/
def delete_session (store : Store) (id : String) :
    Store × Except HTTPException OkResponse :=
  match store id with
  | some _ =>
    (fun k => if k = id then none else store k, Except.ok ⟨true, "Session deleted"⟩)
  | none => (store, Except.error ⟨404, "Session not found"⟩)

/-- The `POST /api/config` handler `setup_agents` (the freshly generated uuid
and `datetime.now()` are parameters).  Python truthiness of the `all`
check: an empty credential string fails validation. -/
def setup_agents (cfg : ConfigRequest) (session_id : String) (now : Nat) (store : Store) :
    Store × Except HTTPException SessionResponse :=
  if cfg.api_key_llm.isEmpty || cfg.api_key_search_tool.isEmpty || cfg.api_key_firecrawl.isEmpty then
    (store, Except.error ⟨400, "Missing required API keys"⟩)
  else
    (fun k =>
        if k = session_id then
          some ⟨⟨cfg.api_key_llm, cfg.llm_mode, initDialogueState⟩,
                ⟨cfg.api_key_llm, cfg.api_key_search_tool, cfg.web_search_mode,
                 cfg.llm_mode, cfg.api_key_firecrawl⟩,
                ⟨cfg.api_key_llm, cfg.llm_mode⟩, [], now⟩
        else store k,
     Except.ok ⟨session_id, true, "Agents initialized successfully"⟩)

/-- The `POST /api/upload-image/{session_id}` handler: 404 unknown session,
400 non-image content type, otherwise run the image interpreter on the
uploaded bytes with an empty caption and return its text. -/
def upload_image (o : Oracle) (store : Store) (id : String)
    (content_type filename : String) (file_content : List Nat) :
    Store × Except HTTPException UploadResponse :=
  match store id with
  | none => (store, Except.error ⟨404, "Session not found"⟩)
  | some _ =>
    if ¬ (("image/").data.isPrefixOf content_type.data) then
      (store, Except.error ⟨400, "File must be an image"⟩)
    else
      match o.process_image file_content "" with
      | Except.error e => (store, Except.error ⟨500, "Image processing error: " ++ e⟩)
      | Except.ok t => (store, Except.ok ⟨true, t, filename⟩)

/-- The status code of a failed handler result. -/
def errStatus : Except HTTPException ChatResponse → Option Nat
  | Except.error e => some e.status_code
  | Except.ok _ => none

/-- Concrete session fixture for witnesses. -/
def testConversationAgent : ConversationAgent := ⟨"key", "OpenAI", initDialogueState⟩

/-- Concrete shopping-team fixture. -/
def testShoppingTeam : ShoppingTeam := ⟨"key", "skey", "Tavily", "OpenAI", "fkey"⟩

/-- Concrete image-processor fixture. -/
def testImageProcessor : ProductImageProcessingAgent := ⟨"key", "OpenAI"⟩

/-- Concrete session fixture with an empty log. -/
def testSession : Session := ⟨testConversationAgent, testShoppingTeam, testImageProcessor, [], 0⟩

/-- Store fixture holding exactly one session under id `s1`. -/
def testStore : Store := fun k => if k = "s1" then some testSession else none

/-- A constant clock fixture. -/
def testClock : Nat → String := fun _ => "2024-01-01T00:00:00"

/-- Oracle fixture whose conversation engine always continues. -/
def contOracle : Oracle :=
  ⟨fun _ t => Except.ok ("img:" ++ t),
   fun _ => Except.ok ⟨true, "reply", "payload"⟩,
   fun d => Except.ok ("html:" ++ d)⟩

/-- Oracle fixture whose conversation engine always hands off to search. -/
def searchOracle : Oracle :=
  ⟨fun _ t => Except.ok ("img:" ++ t),
   fun _ => Except.ok ⟨false, "reply", "payload"⟩,
   fun d => Except.ok ("html:" ++ d)⟩

/-- Oracle fixture whose image interpreter echoes the caption inside its
output. -/
def echoOracle : Oracle :=
  ⟨fun _ t => Except.ok ("seen image; caption: " ++ t),
   fun _ => Except.ok ⟨true, "reply", "payload"⟩,
   fun _ => Except.ok "html"⟩

/-- Oracle fixture with a failing image interpreter. -/
def imageFailOracle : Oracle := { contOracle with process_image := fun _ _ => Except.error "image boom" }

/-- Oracle fixture with a failing conversation engine. -/
def queryFailOracle : Oracle := { contOracle with process_query := fun _ => Except.error "query boom" }

/-- Oracle fixture with a failing product-search engine. -/
def runFailOracle : Oracle := { searchOracle with run := fun _ => Except.error "run boom" }

/-- Oracle fixture agreeing with `contOracle` except on the search engine. -/
def altRunOracle : Oracle := { contOracle with run := fun _ => Except.error "never called" }

/-- Looking up the appended session returns it with the message attached. -/
theorem storeAppend_lookup (store : Store) (id : String) (m : MessageModel) (s : Session)
    (h : store id = some s) :
    storeAppend store id m id = some { s with messages := s.messages ++ [m] } := by
  simp [storeAppend, h]

/-- C1: if the Conversation Engine returns `continue_conversation=true` for a
turn, `process_chat` never invokes the Product Search Engine that turn (the
result is unchanged under any replacement of the search-engine behavior),
and the returned result has kind `conversation`, `continue_conversation=true`
and no `products_html`; the log gains exactly the user and assistant reply
messages. -/
theorem chat_continue_true_no_search (o o2 : Oracle) (c : Nat → String) (req : ChatRequest)
    (store : Store) (agents : Session) (ui : String) (conv : ConvResponse)
    (hs : store req.session_id = some agents)
    (he : effInput o req = Except.ok ui)
    (hq : o.process_query ui = Except.ok conv)
    (hcont : conv.have_further_conversation = true)
    (himg : o2.process_image = o.process_image)
    (hq2 : o2.process_query = o.process_query) :
    process_chat o c req store =
      (storeAppend (storeAppend store req.session_id ⟨"user", ui, c 0, none⟩)
        req.session_id ⟨"assistant", conv.message, c 1, none⟩,
       Except.ok ⟨"conversation", conv.message, none, true, c 2⟩)
    ∧ process_chat o2 c req store = process_chat o c req store
    ∧ (process_chat o c req store).1 req.session_id =
        some { agents with messages := agents.messages ++
          [⟨"user", ui, c 0, none⟩, ⟨"assistant", conv.message, c 1, none⟩] } := by
  have heq : effInput o2 req = effInput o req := by
    simp only [effInput, himg]
  refine ⟨?_, ?_, ?_⟩
  · simp [process_chat, hs, he, hq, hcont]
  · simp [process_chat, hs, he, hq, hcont, hq2, heq]
  · simp [process_chat, hs, he, hq, hcont, storeAppend]

/-- C1 witness: the theorem applied at a concrete store, request and pair of
oracles differing exactly in the search engine. -/
theorem chat_continue_true_no_search_witness :
    process_chat contOracle testClock ⟨"s1", "hello", none⟩ testStore =
      (storeAppend (storeAppend testStore "s1" ⟨"user", "hello", testClock 0, none⟩)
        "s1" ⟨"assistant", "reply", testClock 1, none⟩,
       Except.ok ⟨"conversation", "reply", none, true, testClock 2⟩)
    ∧ process_chat altRunOracle testClock ⟨"s1", "hello", none⟩ testStore =
        process_chat contOracle testClock ⟨"s1", "hello", none⟩ testStore
    ∧ (process_chat contOracle testClock ⟨"s1", "hello", none⟩ testStore).1 "s1" =
        some { testSession with messages := testSession.messages ++
          [⟨"user", "hello", testClock 0, none⟩, ⟨"assistant", "reply", testClock 1, none⟩] } :=
  chat_continue_true_no_search contOracle altRunOracle testClock ⟨"s1", "hello", none⟩
    testStore testSession "hello" ⟨true, "reply", "payload"⟩ rfl rfl rfl rfl rfl rfl

/-- C2: if the Conversation Engine returns `continue_conversation=false`,
the turn appends the user message, the assistant reply, and then exactly one
additional assistant message tagged `product_results` whose content is the
Product Search Engine's rendered output; the result has kind
`product_search` and `products_html` equal to that output. -/
theorem chat_continue_false_product_search (o : Oracle) (c : Nat → String) (req : ChatRequest)
    (store : Store) (agents : Session) (ui : String) (conv : ConvResponse) (sc : String)
    (hs : store req.session_id = some agents)
    (he : effInput o req = Except.ok ui)
    (hq : o.process_query ui = Except.ok conv)
    (hcont : conv.have_further_conversation = false)
    (hr : o.run conv.data = Except.ok sc) :
    process_chat o c req store =
      (storeAppend (storeAppend (storeAppend store req.session_id ⟨"user", ui, c 0, none⟩)
          req.session_id ⟨"assistant", conv.message, c 1, none⟩)
        req.session_id ⟨"assistant", sc, c 2, some "product_results"⟩,
       Except.ok ⟨"product_search", conv.message, some sc, false, c 3⟩)
    ∧ (process_chat o c req store).1 req.session_id =
        some { agents with messages := agents.messages ++
          [⟨"user", ui, c 0, none⟩, ⟨"assistant", conv.message, c 1, none⟩,
           ⟨"assistant", sc, c 2, some "product_results"⟩] } := by
  refine ⟨?_, ?_⟩
  · simp [process_chat, hs, he, hq, hcont, hr]
  · simp [process_chat, hs, he, hq, hcont, hr, storeAppend]

/-- C2 witness: the theorem applied at a concrete store and request with a
hand-off oracle. -/
theorem chat_continue_false_product_search_witness :
    process_chat searchOracle testClock ⟨"s1", "go", none⟩ testStore =
      (storeAppend (storeAppend (storeAppend testStore "s1" ⟨"user", "go", testClock 0, none⟩)
          "s1" ⟨"assistant", "reply", testClock 1, none⟩)
        "s1" ⟨"assistant", "html:payload", testClock 2, some "product_results"⟩,
       Except.ok ⟨"product_search", "reply", some "html:payload", false, testClock 3⟩)
    ∧ (process_chat searchOracle testClock ⟨"s1", "go", none⟩ testStore).1 "s1" =
        some { testSession with messages := testSession.messages ++
          [⟨"user", "go", testClock 0, none⟩, ⟨"assistant", "reply", testClock 1, none⟩,
           ⟨"assistant", "html:payload", testClock 2, some "product_results"⟩] } :=
  chat_continue_false_product_search searchOracle testClock ⟨"s1", "go", none⟩
    testStore testSession "go" ⟨false, "reply", "payload"⟩ "html:payload" rfl rfl rfl rfl rfl

/-- C3: a failure in any stage aborts the turn with a 500 error, appends no
message from the failing stage, keeps the messages appended by earlier steps
of the same turn, and leaves the session itself in the store: (1) image-stage
failure leaves the store unchanged; (2) conversation-stage failure keeps
exactly the user message; (3) search-stage failure keeps exactly the user and
assistant reply messages. -/
theorem chat_stage_failure_partial_log (o : Oracle) (c : Nat → String) (req : ChatRequest)
    (store : Store) (agents : Session) (e ui : String) (conv : ConvResponse)
    (hs : store req.session_id = some agents) :
    (effInput o req = Except.error e →
      process_chat o c req store = (store, Except.error ⟨500, "Processing error: " ++ e⟩))
    ∧ (effInput o req = Except.ok ui → o.process_query ui = Except.error e →
        process_chat o c req store =
          (storeAppend store req.session_id ⟨"user", ui, c 0, none⟩,
           Except.error ⟨500, "Processing error: " ++ e⟩)
        ∧ (process_chat o c req store).1 req.session_id =
            some { agents with messages := agents.messages ++ [⟨"user", ui, c 0, none⟩] })
    ∧ (effInput o req = Except.ok ui → o.process_query ui = Except.ok conv →
        conv.have_further_conversation = false → o.run conv.data = Except.error e →
        process_chat o c req store =
          (storeAppend (storeAppend store req.session_id ⟨"user", ui, c 0, none⟩)
            req.session_id ⟨"assistant", conv.message, c 1, none⟩,
           Except.error ⟨500, "Processing error: " ++ e⟩)
        ∧ (process_chat o c req store).1 req.session_id =
            some { agents with messages := agents.messages ++
              [⟨"user", ui, c 0, none⟩, ⟨"assistant", conv.message, c 1, none⟩] }) := by
  refine ⟨?_, ?_, ?_⟩
  · intro he
    simp [process_chat, hs, he]
  · intro he hq
    refine ⟨by simp [process_chat, hs, he, hq], ?_⟩
    simp [process_chat, hs, he, hq, storeAppend]
  · intro he hq hcont hr
    refine ⟨by simp [process_chat, hs, he, hq, hcont, hr], ?_⟩
    simp [process_chat, hs, he, hq, hcont, hr, storeAppend]

/-- C3 witness: the three failure scenarios at concrete inputs — a failing
image interpreter on an image turn, a failing conversation engine, and a
failing search engine after a hand-off. -/
theorem chat_stage_failure_partial_log_witness :
    process_chat imageFailOracle testClock ⟨"s1", "hi", some "x,QUJD"⟩ testStore =
      (testStore, Except.error ⟨500, "Processing error: " ++ "image boom"⟩)
    ∧ (process_chat queryFailOracle testClock ⟨"s1", "hi", none⟩ testStore =
        (storeAppend testStore "s1" ⟨"user", "hi", testClock 0, none⟩,
         Except.error ⟨500, "Processing error: " ++ "query boom"⟩)
      ∧ (process_chat queryFailOracle testClock ⟨"s1", "hi", none⟩ testStore).1 "s1" =
          some { testSession with messages := testSession.messages ++
            [⟨"user", "hi", testClock 0, none⟩] })
    ∧ (process_chat runFailOracle testClock ⟨"s1", "hi", none⟩ testStore =
        (storeAppend (storeAppend testStore "s1" ⟨"user", "hi", testClock 0, none⟩)
          "s1" ⟨"assistant", "reply", testClock 1, none⟩,
         Except.error ⟨500, "Processing error: " ++ "run boom"⟩)
      ∧ (process_chat runFailOracle testClock ⟨"s1", "hi", none⟩ testStore).1 "s1" =
          some { testSession with messages := testSession.messages ++
            [⟨"user", "hi", testClock 0, none⟩, ⟨"assistant", "reply", testClock 1, none⟩] }) :=
  ⟨(chat_stage_failure_partial_log imageFailOracle testClock ⟨"s1", "hi", some "x,QUJD"⟩
      testStore testSession "image boom" "hi" ⟨true, "reply", "payload"⟩ rfl).1 rfl,
   (chat_stage_failure_partial_log queryFailOracle testClock ⟨"s1", "hi", none⟩
      testStore testSession "query boom" "hi" ⟨true, "reply", "payload"⟩ rfl).2.1 rfl rfl,
   (chat_stage_failure_partial_log runFailOracle testClock ⟨"s1", "hi", none⟩
      testStore testSession "run boom" "hi" ⟨false, "reply", "payload"⟩ rfl).2.2 rfl rfl rfl rfl⟩

/-- C4 counterexample: on a chat request whose image payload is undecodable
(`data:image/png;base64,abc` — three base64 characters, invalid padding),
`process_chat` raises the generic 500 `Processing error` (the blanket
`except Exception` handler), not a 400-equivalent `InvalidImageError`
distinct from the 500-equivalent `ProcessingError` as the claim states; the
log is unchanged. -/
theorem malformed_image_500_counterexample :
    (process_chat contOracle testClock ⟨"s1", "hi", some "data:image/png;base64,abc"⟩
        testStore).2 =
      Except.error ⟨500, "Processing error: Invalid base64-encoded string"⟩
    ∧ (500 : Nat) ≠ 400
    ∧ get_messages (process_chat contOracle testClock
        ⟨"s1", "hi", some "data:image/png;base64,abc"⟩ testStore).1 "s1" = [] :=
  ⟨rfl, by decide, rfl⟩

/-- C4 amended: for every chat request whose image payload is malformed
(no second comma-separated field, or undecodable base64), `process_chat`
fails with the 500-equivalent generic processing error — not a distinct
400-equivalent `InvalidImageError` — and the session's MessageLog is
unchanged: no user message is appended for that failed turn. -/
theorem malformed_image_processing_error (o : Oracle) (c : Nat → String) (req : ChatRequest)
    (store : Store) (agents : Session) (s : String)
    (hs : store req.session_id = some agents)
    (himg : req.image_data = some s)
    (hne : s.isEmpty = false)
    (hmal : decodeImagePayload s = none) :
    (process_chat o c req store).1 = store ∧
    errStatus (process_chat o c req store).2 = some 500 ∧
    get_messages (process_chat o c req store).1 req.session_id = agents.messages := by
  have he : ∃ e, effInput o req = Except.error e := by
    unfold decodeImagePayload at hmal
    unfold effInput
    rw [himg]
    simp only [hne, Bool.false_eq_true, if_false]
    cases hb : b64Input s.data with
    | none => exact ⟨"list index out of range", rfl⟩
    | some seg =>
      rw [hb] at hmal
      have hd : b64decode seg = none := hmal
      exact ⟨"Invalid base64-encoded string", by simp [hd]⟩
  obtain ⟨e, he⟩ := he
  refine ⟨?_, ?_, ?_⟩ <;> simp [process_chat, hs, he, errStatus, get_messages]

/-- C4 witness: the amended theorem applied at the concrete malformed
payload. -/
theorem malformed_image_processing_error_witness :
    (process_chat contOracle testClock ⟨"s1", "hi", some "data:image/png;base64,abc"⟩
        testStore).1 = testStore ∧
    errStatus (process_chat contOracle testClock
        ⟨"s1", "hi", some "data:image/png;base64,abc"⟩ testStore).2 = some 500 ∧
    get_messages (process_chat contOracle testClock
        ⟨"s1", "hi", some "data:image/png;base64,abc"⟩ testStore).1 "s1" =
      testSession.messages :=
  malformed_image_processing_error contOracle testClock
    ⟨"s1", "hi", some "data:image/png;base64,abc"⟩ testStore testSession
    "data:image/png;base64,abc" rfl rfl rfl rfl

/-- C5 counterexample: with an image interpreter whose output folds the
caption into its text (as the design expects it to), the original text DOES
appear inside the logged user message — it is a suffix of it — refuting the
claim's "the original text appears nowhere in them".  The code replaces the
text with the interpreter's output; it does not erase occurrences inside
that output. -/
theorem image_replacement_echo_counterexample :
    (get_messages (process_chat echoOracle testClock ⟨"s1", "hello", some "x,QUJD"⟩
        testStore).1 "s1").get? 0 =
      some ⟨"user", "seen image; caption: hello", testClock 0, none⟩
    ∧ ("hello").data <:+ ("seen image; caption: hello").data :=
  ⟨rfl, ⟨("seen image; caption: ").data, by decide⟩⟩

/-- C5 amended: when an image is supplied, the Image Interpreter is invoked
with the decoded image bytes and the original text, and its output REPLACES
the original text exactly (no concatenation): the effective input, the user
Message content, and the input the Conversation Engine is evaluated at all
equal the interpreter's output; the original text survives only insofar as
the interpreter's own output contains it. -/
theorem image_output_replaces_text (o : Oracle) (c : Nat → String) (req : ChatRequest)
    (store : Store) (agents : Session) (s : String) (bytes : List Nat) (t : String)
    (conv : ConvResponse)
    (hs : store req.session_id = some agents)
    (himg : req.image_data = some s)
    (hne : s.isEmpty = false)
    (hdec : decodeImagePayload s = some bytes)
    (hi : o.process_image bytes req.message = Except.ok t)
    (hq : o.process_query t = Except.ok conv)
    (hcont : conv.have_further_conversation = true) :
    effInput o req = Except.ok t
    ∧ process_chat o c req store =
      (storeAppend (storeAppend store req.session_id ⟨"user", t, c 0, none⟩)
        req.session_id ⟨"assistant", conv.message, c 1, none⟩,
       Except.ok ⟨"conversation", conv.message, none, true, c 2⟩)
    ∧ (process_chat o c req store).1 req.session_id =
        some { agents with messages := agents.messages ++
          [⟨"user", t, c 0, none⟩, ⟨"assistant", conv.message, c 1, none⟩] } := by
  have he : effInput o req = Except.ok t := by
    unfold decodeImagePayload at hdec
    unfold effInput
    rw [himg]
    simp only [hne, Bool.false_eq_true, if_false]
    cases hb : b64Input s.data with
    | none =>
      rw [hb] at hdec
      exact absurd hdec (by simp)
    | some seg =>
      rw [hb] at hdec
      have hd : b64decode seg = some bytes := hdec
      simp [hd, hi]
  refine ⟨he, ?_, ?_⟩
  · simp [process_chat, hs, he, hq, hcont]
  · simp [process_chat, hs, he, hq, hcont, storeAppend]

/-- C5 witness: the amended theorem applied at a concrete image turn whose
payload decodes to the bytes of `ABC`. -/
theorem image_output_replaces_text_witness :
    effInput echoOracle ⟨"s1", "hello", some "x,QUJD"⟩ =
      Except.ok "seen image; caption: hello"
    ∧ process_chat echoOracle testClock ⟨"s1", "hello", some "x,QUJD"⟩ testStore =
      (storeAppend (storeAppend testStore "s1"
          ⟨"user", "seen image; caption: hello", testClock 0, none⟩)
        "s1" ⟨"assistant", "reply", testClock 1, none⟩,
       Except.ok ⟨"conversation", "reply", none, true, testClock 2⟩)
    ∧ (process_chat echoOracle testClock ⟨"s1", "hello", some "x,QUJD"⟩ testStore).1 "s1" =
        some { testSession with messages := testSession.messages ++
          [⟨"user", "seen image; caption: hello", testClock 0, none⟩,
           ⟨"assistant", "reply", testClock 1, none⟩] } :=
  image_output_replaces_text echoOracle testClock ⟨"s1", "hello", some "x,QUJD"⟩
    testStore testSession "x,QUJD" [65, 66, 67] "seen image; caption: hello"
    ⟨true, "reply", "payload"⟩ rfl rfl rfl rfl rfl rfl rfl

/-- The function `splitOnComma` never returns the empty list of groups. -/
theorem splitOnComma_ne_nil (s : List Char) : splitOnComma s ≠ [] := by
  cases s with
  | nil => simp [splitOnComma]
  | cons a t =>
    simp only [splitOnComma]
    split
    · simp
    · split <;> simp

/-- The first group of `splitOnComma` is the part of the string before the
first comma. -/
theorem splitOnComma_head (s : List Char) :
    (splitOnComma s).head? = some (s.takeWhile (fun ch => ch != ',')) := by
  induction s with
  | nil => simp [splitOnComma]
  | cons a t ih =>
    by_cases ha : a = ','
    · subst ha
      simp [splitOnComma]
    · simp only [splitOnComma, if_neg ha]
      cases hsp : splitOnComma t with
      | nil => exact absurd hsp (splitOnComma_ne_nil t)
      | cons g gs =>
        rw [hsp] at ih
        simp only [List.head?] at ih
        have hg : g = t.takeWhile (fun ch => ch != ',') := by
          injection ih
        simp [List.takeWhile_cons, ha, hg]

/-- The second group of `splitOnComma` is the part strictly between the
first and the second comma. -/
theorem splitOnComma_get1 (s : List Char) (h : ',' ∈ s) :
    (splitOnComma s).get? 1 =
      some (((s.dropWhile (fun ch => ch != ',')).drop 1).takeWhile (fun ch => ch != ',')) := by
  induction s with
  | nil => cases h
  | cons a t ih =>
    by_cases ha : a = ','
    · subst ha
      have hsplit : splitOnComma (',' :: t) = [] :: splitOnComma t := by
        simp [splitOnComma]
      have hdrop : List.dropWhile (fun ch => ch != ',') (',' :: t) = ',' :: t := by
        simp [List.dropWhile_cons]
      rw [hsplit, hdrop, List.get?_cons_succ, List.get?_zero]
      simpa using splitOnComma_head t
    · have h2 : ',' ∈ t := by
        cases h with
        | head => exact absurd rfl ha
        | tail _ hm => exact hm
      have hdrop : List.dropWhile (fun ch => ch != ',') (a :: t) =
          List.dropWhile (fun ch => ch != ',') t := by
        simp [List.dropWhile_cons, ha]
      simp only [splitOnComma, if_neg ha, hdrop]
      cases hsp : splitOnComma t with
      | nil => exact absurd hsp (splitOnComma_ne_nil t)
      | cons g gs =>
        have hx := ih h2
        rw [hsp] at hx
        simpa using hx

/-- After the unique comma of a one-comma string, no further comma occurs. -/
theorem drop_after_comma_no_comma (s : List Char) (h : s.count ',' = 1) :
    ',' ∉ (s.dropWhile (fun ch => ch != ',')).drop 1 := by
  induction s with
  | nil => simp
  | cons a t ih =>
    by_cases ha : a = ','
    · subst ha
      have ht : t.count ',' = 0 := by
        have h2 := h
        rw [List.count_cons] at h2
        simp at h2
        exact h2
      have hnm : ',' ∉ t := List.count_eq_zero.mp ht
      have hdrop : List.dropWhile (fun ch => ch != ',') (',' :: t) = ',' :: t := by
        simp [List.dropWhile_cons]
      rw [hdrop]
      simpa using hnm
    · have h2 : t.count ',' = 1 := by
        have h3 := h
        rw [List.count_cons] at h3
        simpa [ha] using h3
      have hdrop : List.dropWhile (fun ch => ch != ',') (a :: t) =
          List.dropWhile (fun ch => ch != ',') t := by
        simp [List.dropWhile_cons, ha]
      rw [hdrop]
      exact ih h2

/-- A comma-free list is fixed by `takeWhile (· != ',')`. -/
theorem takeWhile_of_no_comma (l : List Char) (h : ',' ∉ l) :
    l.takeWhile (fun ch => ch != ',') = l := by
  induction l with
  | nil => simp
  | cons a t ih =>
    have ha : a ≠ ',' := by
      intro hx
      exact h (hx ▸ List.mem_cons_self a t)
    have h2 : ',' ∉ t := fun hm => h (List.mem_cons_of_mem a hm)
    simp [List.takeWhile_cons, ha, ih h2]

/-- C6 counterexample: on the input `a,b,c` the code passes `b` (the segment
between the first and second commas) to base64 decoding, not `b,c` (the
remainder after the first comma) as the claim states: `split(',')[1]` is the
second field, not the tail. -/
theorem split_comma_counterexample :
    b64Input (("a,b,c").data) = some (("b").data)
    ∧ remainderAfterFirstComma (("a,b,c").data) = some (("b,c").data)
    ∧ b64Input (("a,b,c").data) ≠ remainderAfterFirstComma (("a,b,c").data) :=
  ⟨by decide, by decide, by decide⟩

/-- C6 amended: for every image-data string containing at least one comma,
the bytes passed to base64 decoding are exactly the segment of the string
strictly between the first and second commas; when the string contains
exactly one comma (the normal data-URI shape) this coincides with the
remainder after the first comma. -/
theorem b64_input_between_commas (s : List Char) (h : ',' ∈ s) :
    b64Input s =
      some (((s.dropWhile (fun ch => ch != ',')).drop 1).takeWhile (fun ch => ch != ','))
    ∧ (s.count ',' = 1 → b64Input s = remainderAfterFirstComma s) := by
  refine ⟨splitOnComma_get1 s h, ?_⟩
  intro h1
  rw [b64Input, splitOnComma_get1 s h, remainderAfterFirstComma, if_pos h,
    takeWhile_of_no_comma _ (drop_after_comma_no_comma s h1)]

/-- C6 witness: the amended theorem applied at the concrete data-URI-style
string `x,QUJD`, which has exactly one comma. -/
theorem b64_input_between_commas_witness :
    b64Input (("x,QUJD").data) =
      some (((("x,QUJD").data.dropWhile (fun ch => ch != ',')).drop 1).takeWhile
        (fun ch => ch != ','))
    ∧ b64Input (("x,QUJD").data) = remainderAfterFirstComma (("x,QUJD").data) :=
  ⟨(b64_input_between_commas (("x,QUJD").data) (by decide)).1,
   (b64_input_between_commas (("x,QUJD").data) (by decide)).2 (by decide)⟩

/-- C7: for an existing session, `clear` succeeds, the session still exists
with an empty message snapshot, the conversation engine's dialogue state is
back to its initial state, and the collaborator instances are the SAME
configured instances (shopping team and image processor unchanged,
conversation agent's credentials unchanged) — nothing is recreated. -/
theorem clear_resets_messages_and_state (store : Store) (id : String) (s : Session)
    (hs : store id = some s) :
    (clear_conversation store id).2 = Except.ok ⟨true, "Conversation cleared"⟩
    ∧ (clear_conversation store id).1 id =
        some { s with
          messages := []
          conversation_agent :=
            { s.conversation_agent with dialogueState := initDialogueState } }
    ∧ get_messages (clear_conversation store id).1 id = []
    ∧ ((clear_conversation store id).1 id).map Session.shopping_team = some s.shopping_team
    ∧ ((clear_conversation store id).1 id).map Session.image_processor =
        some s.image_processor
    ∧ ((clear_conversation store id).1 id).map (fun x => x.conversation_agent.api_key) =
        some s.conversation_agent.api_key
    ∧ ((clear_conversation store id).1 id).map (fun x => x.conversation_agent.llm_mode) =
        some s.conversation_agent.llm_mode := by
  refine ⟨?_, ?_, ?_, ?_, ?_, ?_, ?_⟩ <;>
    simp [clear_conversation, hs, get_messages, ConversationAgent.reset]

/-- C7 witness: the theorem applied at the concrete one-session store. -/
theorem clear_resets_messages_and_state_witness :
    (clear_conversation testStore "s1").2 = Except.ok ⟨true, "Conversation cleared"⟩
    ∧ (clear_conversation testStore "s1").1 "s1" =
        some { testSession with
          messages := []
          conversation_agent :=
            { testSession.conversation_agent with dialogueState := initDialogueState } }
    ∧ get_messages (clear_conversation testStore "s1").1 "s1" = []
    ∧ ((clear_conversation testStore "s1").1 "s1").map Session.shopping_team =
        some testSession.shopping_team
    ∧ ((clear_conversation testStore "s1").1 "s1").map Session.image_processor =
        some testSession.image_processor
    ∧ ((clear_conversation testStore "s1").1 "s1").map
        (fun x => x.conversation_agent.api_key) =
        some testSession.conversation_agent.api_key
    ∧ ((clear_conversation testStore "s1").1 "s1").map
        (fun x => x.conversation_agent.llm_mode) =
        some testSession.conversation_agent.llm_mode :=
  clear_resets_messages_and_state testStore "s1" testSession rfl

/-- C8: after a successful `delete`, lookup of the id yields nothing, a chat
turn on the id fails with the 404 session-not-found error (not a crash), and
a second delete fails with the 404 error — idempotent failure semantics. -/
theorem delete_then_ops_not_found (store : Store) (id : String) (s : Session)
    (o : Oracle) (c : Nat → String) (msg : String) (img : Option String)
    (hs : store id = some s) :
    (delete_session store id).2 = Except.ok ⟨true, "Session deleted"⟩
    ∧ (delete_session store id).1 id = none
    ∧ process_chat o c ⟨id, msg, img⟩ (delete_session store id).1 =
        ((delete_session store id).1,
         Except.error ⟨404, "Session not found. Please configure agents first."⟩)
    ∧ delete_session (delete_session store id).1 id =
        ((delete_session store id).1, Except.error ⟨404, "Session not found"⟩) := by
  have h1 : (delete_session store id).1 id = none := by
    simp [delete_session, hs]
  refine ⟨by simp [delete_session, hs], h1, ?_, ?_⟩
  · simp only [process_chat, h1]
  · conv in delete_session (delete_session store id).1 id => rw [delete_session]
    rw [h1]

/-- C8 witness: the theorem applied at the concrete one-session store. -/
theorem delete_then_ops_not_found_witness :
    (delete_session testStore "s1").2 = Except.ok ⟨true, "Session deleted"⟩
    ∧ (delete_session testStore "s1").1 "s1" = none
    ∧ process_chat contOracle testClock ⟨"s1", "hi", none⟩ (delete_session testStore "s1").1 =
        ((delete_session testStore "s1").1,
         Except.error ⟨404, "Session not found. Please configure agents first."⟩)
    ∧ delete_session (delete_session testStore "s1").1 "s1" =
        ((delete_session testStore "s1").1, Except.error ⟨404, "Session not found"⟩) :=
  delete_then_ops_not_found testStore "s1" testSession contOracle testClock "hi" none rfl

/-- C9: `get_messages` never fails — an unknown id yields the empty list
(not a 404), and an existing id yields the session's full ordered message
snapshot. -/
theorem get_messages_total (store : Store) (id : String) (s : Session) :
    (store id = none → get_messages store id = [])
    ∧ (store id = some s → get_messages store id = s.messages) := by
  constructor <;> intro h <;> simp [get_messages, h]

/-- C9 witness: the theorem applied at an unknown id and at the existing id
of the concrete store. -/
theorem get_messages_total_witness :
    get_messages testStore "nope" = [] ∧ get_messages testStore "s1" = testSession.messages :=
  ⟨(get_messages_total testStore "nope" testSession).1 rfl,
   (get_messages_total testStore "s1" testSession).2 rfl⟩

/-- C10: `upload_image` never changes the store — in particular, for an
existing session and an image upload it returns the interpreter's extracted
text and the filename while appending nothing to the session's log, so a
message snapshot after the upload equals the one before. -/
theorem upload_image_frame (o : Oracle) (store : Store) (id ct fn : String)
    (fc : List Nat) (s : Session) (t : String)
    (hs : store id = some s)
    (hct : ("image/").data.isPrefixOf ct.data = true)
    (hi : o.process_image fc "" = Except.ok t) :
    (upload_image o store id ct fn fc).1 = store
    ∧ upload_image o store id ct fn fc = (store, Except.ok ⟨true, t, fn⟩)
    ∧ get_messages (upload_image o store id ct fn fc).1 id = get_messages store id := by
  have hmain : upload_image o store id ct fn fc = (store, Except.ok ⟨true, t, fn⟩) := by
    simp [upload_image, hs, hct, hi]
  exact ⟨by rw [hmain], hmain, by rw [hmain]⟩

/-- C10 witness: the theorem applied at a concrete session, content type and
file. -/
theorem upload_image_frame_witness :
    (upload_image contOracle testStore "s1" "image/png" "cat.png" [1, 2, 3]).1 = testStore
    ∧ upload_image contOracle testStore "s1" "image/png" "cat.png" [1, 2, 3] =
        (testStore, Except.ok ⟨true, "img:", "cat.png"⟩)
    ∧ get_messages (upload_image contOracle testStore "s1" "image/png" "cat.png" [1, 2, 3]).1
        "s1" = get_messages testStore "s1" :=
  upload_image_frame contOracle testStore "s1" "image/png" "cat.png" [1, 2, 3]
    testSession "img:" rfl (by decide) rfl

end Ecom
